import Mathlib

/-!
Verification of the sendgrid-statistics-exporter core
(`src/cmd/sendgrid-exporter/main.go`) against its specification.

The Go code is shallowly embedded: the JSON data model (`Metrics`, `Stat`,
`Statistics`), the response classification and request construction of
`collectMetrics`, and the scrape logic of `Collector.Collect` become
executable Lean definitions.  Metric values are `int64` counters in Go and
are modelled as `Int`; the `float64` cast applied at emission is the
identity on the integers the claims talk about, so emitted gauge values
are kept as `Int`.  A Go runtime panic (index out of range, nil pointer
dereference) aborts the scrape; it is modelled by the `Except.error`
branch of the collect outcome, which carries the observations emitted
before the panic.
-/

namespace SendgridExporter

/-- Embeds the `Metrics` struct (main.go lines 612 to 629): the sixteen
int64 counters of one stat record, in source field order. -/
structure Metrics where
  blocks : Int
  bounceDrops : Int
  bounces : Int
  clicks : Int
  deferred : Int
  delivered : Int
  invalidEmails : Int
  opens : Int
  processed : Int
  requests : Int
  spamReportDrops : Int
  spamReports : Int
  uniqueClicks : Int
  uniqueOpens : Int
  unsubscribeDrops : Int
  unsubscribes : Int
deriving DecidableEq

/-- The all-zero `Metrics` value, the Go zero value of the struct. -/
def Metrics.zero : Metrics :=
  ⟨0, 0, 0, 0, 0, 0, 0, 0, 0, 0, 0, 0, 0, 0, 0, 0⟩

/-- Embeds the `Stat` struct (main.go lines 631 to 635).  The Go field
`Metrics *Metrics` is a pointer, modelled as `Option Metrics`; a `none`
here makes the emission loop dereference nil and panic. -/
structure Stat where
  metrics : Option Metrics
  name : String
  type : String
deriving DecidableEq

/-- Embeds the `Statistics` struct (main.go lines 637 to 640): one date
envelope with its ordered record sequence.  Record pointers are modelled
as values; a nil record pointer is not exercised by any claim. -/
structure Statistics where
  date : String
  stats : List Stat
deriving DecidableEq

/-- The error values `collectMetrics` can return: a transport failure from
`http.DefaultClient.Do`, a `fmt.Errorf` message, or a `json.Decoder`
failure returned unchanged (main.go lines 666 to 687). -/
inductive GoErr where
  | transport (msg : String)
  | message (msg : String)
  | jsonDecode (msg : String)
deriving DecidableEq

/-- Embeds the global `namespace` variable (main.go line 22). -/
def namespaceVar : String := "sendgrid"

/-- Embeds `prometheus.BuildFQName` from the client library, used by
`newCollector` (main.go lines 117 to 317) to build every metric name. -/
def buildFQName (ns subsystem nm : String) : String :=
  if nm = "" then ""
  else if ns ≠ "" ∧ subsystem ≠ "" then ns ++ "_" ++ subsystem ++ "_" ++ nm
  else if ns ≠ "" then ns ++ "_" ++ nm
  else if subsystem ≠ "" then subsystem ++ "_" ++ nm
  else nm

/-- Name of the health gauge, from `newCollector` (main.go lines 119 to 123). -/
def upName : String := buildFQName namespaceVar "" "up"

/-- Metric descriptor names registered by `newCollector`, daily family. -/
def dailyblocks : String := buildFQName namespaceVar "" "dailyblocks"
def dailybounceDrops : String := buildFQName namespaceVar "" "dailybounce_drops"
def dailybounces : String := buildFQName namespaceVar "" "dailybounces"
def dailyclicks : String := buildFQName namespaceVar "" "dailyclicks"
def dailydeferred : String := buildFQName namespaceVar "" "dailydeferred"
def dailydelivered : String := buildFQName namespaceVar "" "dailydelivered"
def dailyinvalidEmails : String := buildFQName namespaceVar "" "dailyinvalid_emails"
def dailyopens : String := buildFQName namespaceVar "" "dailyopens"
def dailyprocessed : String := buildFQName namespaceVar "" "dailyprocessed"
def dailyrequests : String := buildFQName namespaceVar "" "dailyrequests"
def dailyspamReportDrops : String := buildFQName namespaceVar "" "dailyspam_report_drops"
def dailyspamReports : String := buildFQName namespaceVar "" "dailyspam_reports"
def dailyuniqueClicks : String := buildFQName namespaceVar "" "dailyunique_clicks"
def dailyuniqueOpens : String := buildFQName namespaceVar "" "dailyunique_opens"
def dailyunsubscribeDrops : String := buildFQName namespaceVar "" "dailyunsubscribe_drops"
def dailyunsubscribes : String := buildFQName namespaceVar "" "dailyunsubscribes"

/-- Metric descriptor names registered by `newCollector`, monthly family. -/
def monthlyblocks : String := buildFQName namespaceVar "" "monthlyblocks"
def monthlybounceDrops : String := buildFQName namespaceVar "" "monthlybounce_drops"
def monthlybounces : String := buildFQName namespaceVar "" "monthlybounces"
def monthlyclicks : String := buildFQName namespaceVar "" "monthlyclicks"
def monthlydeferred : String := buildFQName namespaceVar "" "monthlydeferred"
def monthlydelivered : String := buildFQName namespaceVar "" "monthlydelivered"
def monthlyinvalidEmails : String := buildFQName namespaceVar "" "monthlyinvalid_emails"
def monthlyopens : String := buildFQName namespaceVar "" "monthlyopens"
def monthlyprocessed : String := buildFQName namespaceVar "" "monthlyprocessed"
def monthlyrequests : String := buildFQName namespaceVar "" "monthlyrequests"
def monthlyspamReportDrops : String := buildFQName namespaceVar "" "monthlyspam_report_drops"
def monthlyspamReports : String := buildFQName namespaceVar "" "monthlyspam_reports"
def monthlyuniqueClicks : String := buildFQName namespaceVar "" "monthlyunique_clicks"
def monthlyuniqueOpens : String := buildFQName namespaceVar "" "monthlyunique_opens"
def monthlyunsubscribeDrops : String := buildFQName namespaceVar "" "monthlyunsubscribe_drops"
def monthlyunsubscribes : String := buildFQName namespaceVar "" "monthlyunsubscribes"

/-- One value sent on the collect channel: either the health gauge with its
current value, or a `MustNewConstMetric` gauge observation with its
descriptor name, value and the two label values `{type, name}`. -/
inductive Emitted where
  | upGauge (v : Int)
  | const (desc : String) (value : Int) (labelType : String) (labelName : String)
deriving DecidableEq

/-- The sixteen observations for one record of the monthly loop body
(main.go lines 382 to 495), in source emission order.  A nil `Metrics`
pointer panics before the first send of the record, hence `none`. -/
def monthlyStatEmits (s1 : Stat) : Option (List Emitted) :=
  match s1.metrics with
  | none => none
  | some mm => some
    [ .const monthlyblocks mm.blocks s1.type s1.name,
      .const monthlybounceDrops mm.bounceDrops s1.type s1.name,
      .const monthlybounces mm.bounces s1.type s1.name,
      .const monthlyclicks mm.clicks s1.type s1.name,
      .const monthlydeferred mm.deferred s1.type s1.name,
      .const monthlydelivered mm.delivered s1.type s1.name,
      .const monthlyinvalidEmails mm.invalidEmails s1.type s1.name,
      .const monthlyopens mm.opens s1.type s1.name,
      .const monthlyprocessed mm.processed s1.type s1.name,
      .const monthlyrequests mm.requests s1.type s1.name,
      .const monthlyspamReportDrops mm.spamReportDrops s1.type s1.name,
      .const monthlyspamReports mm.spamReports s1.type s1.name,
      .const monthlyuniqueClicks mm.uniqueClicks s1.type s1.name,
      .const monthlyuniqueOpens mm.uniqueOpens s1.type s1.name,
      .const monthlyunsubscribeDrops mm.unsubscribeDrops s1.type s1.name,
      .const monthlyunsubscribes mm.unsubscribes s1.type s1.name ]

/-- The sixteen observations for one record of the daily loop body
(main.go lines 496 to 609), in source emission order. -/
def dailyStatEmits (s : Stat) : Option (List Emitted) :=
  match s.metrics with
  | none => none
  | some mm => some
    [ .const dailyblocks mm.blocks s.type s.name,
      .const dailybounceDrops mm.bounceDrops s.type s.name,
      .const dailybounces mm.bounces s.type s.name,
      .const dailyclicks mm.clicks s.type s.name,
      .const dailydeferred mm.deferred s.type s.name,
      .const dailydelivered mm.delivered s.type s.name,
      .const dailyinvalidEmails mm.invalidEmails s.type s.name,
      .const dailyopens mm.opens s.type s.name,
      .const dailyprocessed mm.processed s.type s.name,
      .const dailyrequests mm.requests s.type s.name,
      .const dailyspamReportDrops mm.spamReportDrops s.type s.name,
      .const dailyspamReports mm.spamReports s.type s.name,
      .const dailyuniqueClicks mm.uniqueClicks s.type s.name,
      .const dailyuniqueOpens mm.uniqueOpens s.type s.name,
      .const dailyunsubscribeDrops mm.unsubscribeDrops s.type s.name,
      .const dailyunsubscribes mm.unsubscribes s.type s.name ]

/-- Runs a per-record emission body over a record list, in order.  `ok`
carries the full trace; `error` carries the observations emitted before a
record with a nil metrics pointer made the Go loop panic. -/
def emitAll (f : Stat → Option (List Emitted)) : List Stat → Except (List Emitted) (List Emitted)
  | [] => .ok []
  | s :: rest =>
    match f s with
    | none => .error []
    | some e =>
      match emitAll f rest with
      | .error p => .error (e ++ p)
      | .ok r => .ok (e ++ r)

/-- Embeds `Collector.Collect` (main.go lines 355 to 610) as a function of
the previous value of the shared `up` gauge and the two fetch results,
`metrics` from `collectMetrics("day")` and `totalmetrics` from
`collectMetrics("month")`.  Returns the value the `up` gauge holds after
the scrape and the outcome: `ok trace` for a completed scrape, `error
trace` when the scrape panicked after emitting `trace` (the unguarded
`totalmetrics[0]` on an empty monthly list, or a nil metrics pointer in a
record). -/
def Collect (upPrev : Int) (dayRes monthRes : Except GoErr (List Statistics)) :
    Int × Except (List Emitted) (List Emitted) :=
  match dayRes, monthRes with
  | .error _, _ => (0, .ok [.upGauge 0])
  | .ok _, .error _ => (0, .ok [.upGauge 0])
  | .ok metrics, .ok totalmetrics =>
    match metrics with
    | [] => (0, .ok [.upGauge 0])
    | m0 :: _ =>
      match totalmetrics with
      | [] => (1, .error [.upGauge 1])
      | t0 :: _ =>
        match emitAll monthlyStatEmits t0.stats with
        | .error tr => (1, .error (.upGauge 1 :: tr))
        | .ok trM =>
          match emitAll dailyStatEmits m0.stats with
          | .error tr => (1, .error (.upGauge 1 :: (trM ++ tr)))
          | .ok trD => (1, .ok (.upGauge 1 :: (trM ++ trD)))

/-- The two aggregation granularities requested by `Collect`. -/
inductive Gran where
  | day
  | month
deriving DecidableEq

/-- The `aggregated_by` argument `Collect` passes to `collectMetrics` for
each granularity (main.go lines 356 and 357). -/
def granParam : Gran → String
  | .day => "day"
  | .month => "month"

/-- Embeds the scrape entry of `Collector.Collect` with the fetcher as an
oracle: lines 356 and 357 call `collectMetrics("day")` and then
`collectMetrics("month")`, in that written order; the first component
transcribes that call sequence. -/
def CollectRun (fetch : String → Except GoErr (List Statistics)) (upPrev : Int) :
    List String × (Int × Except (List Emitted) (List Emitted)) :=
  ([granParam .day, granParam .month],
    Collect upPrev (fetch (granParam .day)) (fetch (granParam .month)))

/-- Descriptor name of an emitted value: the health gauge is the `up`
gauge of `newCollector`, a const metric carries its own descriptor. -/
def descOf : Emitted → String
  | .upGauge _ => upName
  | .const d _ _ _ => d

/-- Truncates a fetch result to its first envelope, leaving errors alone. -/
def truncFetch (r : Except GoErr (List Statistics)) : Except GoErr (List Statistics) :=
  match r with
  | .error e => .error e
  | .ok l => .ok (l.take 1)

/-- Embeds the response handling of `collectMetrics` (main.go lines 675 to
689): the status switch, then the JSON decode of the body.  The decode
outcome `decode` stands for what `json.NewDecoder(r).Decode(&data)` would
produce on the response body; it is consulted only in the 200 arm, and a
decode failure is returned unchanged. -/
def responseResult (statusCode : Nat) (decode : Except String (List Statistics)) :
    Except GoErr (List Statistics) :=
  if statusCode = 200 then
    match decode with
    | .error e => .error (.jsonDecode e)
    | .ok data => .ok data
  else if statusCode = 429 then .error (.message "ireached API rate limit")
  else .error (.message "invalid request")

/-- Converts a day count since 1970-01-01 to a proleptic Gregorian civil
date (year, month, day); used to model Go time formatting for instants at
or after the epoch. -/
def civilFromDays (z0 : Nat) : Nat × Nat × Nat :=
  let z := z0 + 719468
  let era := z / 146097
  let doe := z % 146097
  let yoe := (doe - doe / 1460 + doe / 36524 - doe / 146096) / 365
  let y := yoe + era * 400
  let doy := doe - (365 * yoe + yoe / 4 - yoe / 100)
  let mp := (5 * doy + 2) / 153
  let d := doy - (153 * mp + 2) / 5 + 1
  let m := if mp < 10 then mp + 3 else mp - 9
  (if m ≤ 2 then y + 1 else y, m, d)

/-- Left-pads a number to two digits, as the Go layout `01`/`02` does. -/
def pad2 (n : Nat) : String :=
  if n < 10 then "0" ++ toString n else "" ++ toString n

/-- Models `t.Format("2006-01-02")` for a wall-clock reading given as
seconds since the epoch: the `YYYY-MM-DD` rendering of its civil date. -/
def formatGoDate (sec : Nat) : String :=
  match civilFromDays (sec / 86400) with
  | (y, m, d) => toString y ++ "-" ++ pad2 m ++ "-" ++ pad2 d

/-- Models `url.Values.Encode` for the values used here: keys are written
in sorted order and none of the values needs escaping. -/
def encodeQuery (ps : List (String × String)) : String :=
  String.intercalate "&" (ps.map fun p => p.1 ++ "=" ++ p.2)

/-- The observable shape of the outbound request built by
`collectMetrics`: its method, the endpoint, the query content (in the
sorted order `url.Values.Encode` writes it), the resulting full URL and
the Authorization header value. -/
structure HttpRequest where
  method : String
  endpoint : String
  query : List (String × String)
  url : String
  authorization : String
deriving DecidableEq

/-- Embeds the request construction of `collectMetrics` (main.go lines 644
to 664).  `localNowSec` is the wall-clock reading `time.Now()` formats: Go
renders the date in the process local time zone, so this is the local
clock, seconds since the epoch.  `url.Values.Encode` writes the three keys
in sorted order: aggregated_by, end_date, start_date. -/
def collectMetricsRequest (localNowSec : Nat) (apiKey aggregadedby : String) : HttpRequest :=
  let today := formatGoDate localNowSec
  let start := today
  let endDate := today
  let byParam := aggregadedby
  let q := [("aggregated_by", byParam), ("end_date", endDate), ("start_date", start)]
  { method := "GET"
    endpoint := "https://api.sendgrid.com/v3/stats"
    query := q
    url := "https://api.sendgrid.com/v3/stats" ++ "?" ++ encodeQuery q
    authorization := "Bearer " ++ apiKey }

/-- Looks up an integer field of a JSON object, the object modelled as the
list of its present integer members; an absent member leaves the Go zero
value 0. -/
def jLookup (o : List (String × Int)) (k : String) : Int :=
  match List.lookup k o with
  | some v => v
  | none => 0

/-- Embeds the JSON decoding of the `Metrics` struct (main.go lines 612 to
629) under Go encoding/json semantics: each tagged field takes the value
of the member of that name when present and keeps the zero value 0 when
the member is absent; decoding a well-formed object never fails. -/
def decodeMetrics (o : List (String × Int)) : Metrics :=
  { blocks := jLookup o "blocks"
    bounceDrops := jLookup o "bounce_drops"
    bounces := jLookup o "bounces"
    clicks := jLookup o "clicks"
    deferred := jLookup o "deferred"
    delivered := jLookup o "delivered"
    invalidEmails := jLookup o "invalid_emails"
    opens := jLookup o "opens"
    processed := jLookup o "processed"
    requests := jLookup o "requests"
    spamReportDrops := jLookup o "spam_report_drops"
    spamReports := jLookup o "spam_reports"
    uniqueClicks := jLookup o "unique_clicks"
    uniqueOpens := jLookup o "unique_opens"
    unsubscribeDrops := jLookup o "unsubscribe_drops"
    unsubscribes := jLookup o "unsubscribes" }

/-- Modelled from the spec: the sixteen metric kinds in their fixed field
order, each with its monthly-scoped exposed name and its counter accessor
(spec sections 4.2 and 6). -/
def specMonthlyTable : List (String × (Metrics → Int)) :=
  [ ("sendgrid_monthlyblocks", Metrics.blocks),
    ("sendgrid_monthlybounce_drops", Metrics.bounceDrops),
    ("sendgrid_monthlybounces", Metrics.bounces),
    ("sendgrid_monthlyclicks", Metrics.clicks),
    ("sendgrid_monthlydeferred", Metrics.deferred),
    ("sendgrid_monthlydelivered", Metrics.delivered),
    ("sendgrid_monthlyinvalid_emails", Metrics.invalidEmails),
    ("sendgrid_monthlyopens", Metrics.opens),
    ("sendgrid_monthlyprocessed", Metrics.processed),
    ("sendgrid_monthlyrequests", Metrics.requests),
    ("sendgrid_monthlyspam_report_drops", Metrics.spamReportDrops),
    ("sendgrid_monthlyspam_reports", Metrics.spamReports),
    ("sendgrid_monthlyunique_clicks", Metrics.uniqueClicks),
    ("sendgrid_monthlyunique_opens", Metrics.uniqueOpens),
    ("sendgrid_monthlyunsubscribe_drops", Metrics.unsubscribeDrops),
    ("sendgrid_monthlyunsubscribes", Metrics.unsubscribes) ]

/-- Modelled from the spec: the same sixteen metric kinds with their
daily-scoped exposed names (spec sections 4.2 and 6). -/
def specDailyTable : List (String × (Metrics → Int)) :=
  [ ("sendgrid_dailyblocks", Metrics.blocks),
    ("sendgrid_dailybounce_drops", Metrics.bounceDrops),
    ("sendgrid_dailybounces", Metrics.bounces),
    ("sendgrid_dailyclicks", Metrics.clicks),
    ("sendgrid_dailydeferred", Metrics.deferred),
    ("sendgrid_dailydelivered", Metrics.delivered),
    ("sendgrid_dailyinvalid_emails", Metrics.invalidEmails),
    ("sendgrid_dailyopens", Metrics.opens),
    ("sendgrid_dailyprocessed", Metrics.processed),
    ("sendgrid_dailyrequests", Metrics.requests),
    ("sendgrid_dailyspam_report_drops", Metrics.spamReportDrops),
    ("sendgrid_dailyspam_reports", Metrics.spamReports),
    ("sendgrid_dailyunique_clicks", Metrics.uniqueClicks),
    ("sendgrid_dailyunique_opens", Metrics.uniqueOpens),
    ("sendgrid_dailyunsubscribe_drops", Metrics.unsubscribeDrops),
    ("sendgrid_dailyunsubscribes", Metrics.unsubscribes) ]

/-- Modelled from the spec: the sixteen observations one record yields,
each metric labeled with the record type and name and valued at the
corresponding counter, in the fixed field order of the table. -/
def specEmitStat (tbl : List (String × (Metrics → Int))) (mm : Metrics) (ty nm : String) :
    List Emitted :=
  tbl.map fun p => .const p.1 (p.2 mm) ty nm

/-- Modelled from the spec: all observations of a record sequence, records
in response order, sixteen observations per record. -/
def specEmitRecords (tbl : List (String × (Metrics → Int))) (stats : List Stat) : List Emitted :=
  (stats.map fun s => specEmitStat tbl (s.metrics.getD Metrics.zero) s.type s.name).flatten

/-- The sixteen JSON member names of the `Metrics` struct tags, in source
field order. -/
def fieldNames : List String :=
  [ "blocks", "bounce_drops", "bounces", "clicks", "deferred", "delivered",
    "invalid_emails", "opens", "processed", "requests", "spam_report_drops",
    "spam_reports", "unique_clicks", "unique_opens", "unsubscribe_drops",
    "unsubscribes" ]

/-- The sixteen counter projections of `Metrics`, in source field order. -/
def counterProjs : List (Metrics → Int) :=
  [ Metrics.blocks, Metrics.bounceDrops, Metrics.bounces, Metrics.clicks,
    Metrics.deferred, Metrics.delivered, Metrics.invalidEmails, Metrics.opens,
    Metrics.processed, Metrics.requests, Metrics.spamReportDrops,
    Metrics.spamReports, Metrics.uniqueClicks, Metrics.uniqueOpens,
    Metrics.unsubscribeDrops, Metrics.unsubscribes ]

/-- The sixteen daily descriptor names, in source field order. -/
def dailyDescs : List String :=
  [ dailyblocks, dailybounceDrops, dailybounces, dailyclicks, dailydeferred,
    dailydelivered, dailyinvalidEmails, dailyopens, dailyprocessed,
    dailyrequests, dailyspamReportDrops, dailyspamReports, dailyuniqueClicks,
    dailyuniqueOpens, dailyunsubscribeDrops, dailyunsubscribes ]

/-- JSON member name of the i-th `Metrics` field. -/
def fieldNameAt (i : Fin 16) : String := fieldNames.get (Fin.cast rfl i)

/-- Counter projection of the i-th `Metrics` field. -/
def counterAt (i : Fin 16) : Metrics → Int := counterProjs.get (Fin.cast rfl i)

/-- Daily descriptor name of the i-th `Metrics` field. -/
def dailyDescAt (i : Fin 16) : String := dailyDescs.get (Fin.cast rfl i)

/-- A concrete record used to evaluate the theorems on explicit inputs. -/
def exampleStat : Stat :=
  { metrics := some
      { blocks := 1, bounceDrops := 2, bounces := 3, clicks := 4,
        deferred := 5, delivered := 6, invalidEmails := 7, opens := 8,
        processed := 9, requests := 10, spamReportDrops := 11,
        spamReports := 12, uniqueClicks := 13, uniqueOpens := 14,
        unsubscribeDrops := 15, unsubscribes := 16 }
    name := "example.org"
    type := "device" }

/-- A concrete single-record envelope for the example date. -/
def exampleEnvelope : Statistics :=
  { date := "1970-01-01", stats := [exampleStat] }

/-- A concrete fetch oracle answering both granularities with the example
envelope. -/
def exampleFetch : String → Except GoErr (List Statistics) :=
  fun g => if g = "day" then .ok [exampleEnvelope] else .ok [exampleEnvelope]

/-! ## Helper lemmas -/

/-- The monthly loop body on a record with a metrics object produces
exactly the sixteen spec-ordered monthly observations of that record. -/
theorem monthlyStatEmits_eq (mm : Metrics) (nm ty : String) :
    monthlyStatEmits { metrics := some mm, name := nm, type := ty }
      = some (specEmitStat specMonthlyTable mm ty nm) := rfl

/-- The daily loop body on a record with a metrics object produces exactly
the sixteen spec-ordered daily observations of that record. -/
theorem dailyStatEmits_eq (mm : Metrics) (nm ty : String) :
    dailyStatEmits { metrics := some mm, name := nm, type := ty }
      = some (specEmitStat specDailyTable mm ty nm) := rfl

/-- When every record of a list carries a metrics object, the monthly loop
completes and emits the spec-described observations of the list. -/
theorem emitAll_monthly (l : List Stat) (h : ∀ s ∈ l, s.metrics.isSome) :
    emitAll monthlyStatEmits l = .ok (specEmitRecords specMonthlyTable l) := by
  induction l with
  | nil => rfl
  | cons s rest ih =>
    obtain ⟨ms, nm, ty⟩ := s
    obtain ⟨mm, hmm⟩ := Option.isSome_iff_exists.mp (h _ (List.mem_cons_self _ _))
    have hrest := ih fun x hx => h x (List.mem_cons_of_mem _ hx)
    simp only at hmm
    subst hmm
    simp [emitAll, monthlyStatEmits_eq, hrest, specEmitRecords]

/-- When every record of a list carries a metrics object, the daily loop
completes and emits the spec-described observations of the list. -/
theorem emitAll_daily (l : List Stat) (h : ∀ s ∈ l, s.metrics.isSome) :
    emitAll dailyStatEmits l = .ok (specEmitRecords specDailyTable l) := by
  induction l with
  | nil => rfl
  | cons s rest ih =>
    obtain ⟨ms, nm, ty⟩ := s
    obtain ⟨mm, hmm⟩ := Option.isSome_iff_exists.mp (h _ (List.mem_cons_self _ _))
    have hrest := ih fun x hx => h x (List.mem_cons_of_mem _ hx)
    simp only at hmm
    subst hmm
    simp [emitAll, dailyStatEmits_eq, hrest, specEmitRecords]

/-- Shared success-path description of `Collect`: both fetches return a
non-empty envelope list and every consumed record carries a metrics
object. -/
theorem collect_ok_ok (p : Int) (m0 t0 : Statistics) (mrest trest : List Statistics)
    (hdm : ∀ s ∈ m0.stats, s.metrics.isSome)
    (htm : ∀ s ∈ t0.stats, s.metrics.isSome) :
    Collect p (.ok (m0 :: mrest)) (.ok (t0 :: trest))
      = (1, .ok (.upGauge 1 :: (specEmitRecords specMonthlyTable t0.stats
          ++ specEmitRecords specDailyTable m0.stats))) := by
  simp [Collect, emitAll_monthly _ htm, emitAll_daily _ hdm]

/-- Descriptor names of the spec observations of one record are the table
names. -/
theorem descOf_specEmitStat (tbl : List (String × (Metrics → Int))) (mm : Metrics)
    (ty nm : String) :
    (specEmitStat tbl mm ty nm).map descOf = tbl.map Prod.fst := by
  simp [specEmitStat, descOf, List.map_map, Function.comp]

/-- Descriptor names of the spec observations of a record list: sixteen
table names per record, record order preserved. -/
theorem descOf_specEmitRecords (tbl : List (String × (Metrics → Int))) (stats : List Stat) :
    (specEmitRecords tbl stats).map descOf
      = (stats.map fun _ => tbl.map Prod.fst).flatten := by
  induction stats with
  | nil => rfl
  | cons s rest ih =>
    simp only [specEmitRecords, List.map_cons, List.flatten_cons, List.map_append,
      descOf_specEmitStat]
    simpa [specEmitRecords] using ih

/-- Lookup of a member name absent from a JSON object yields the Go zero
value. -/
theorem jLookup_eq_zero (o : List (String × Int)) (k : String)
    (h : k ∉ o.map Prod.fst) : jLookup o k = 0 := by
  induction o with
  | nil => rfl
  | cons p rest ih =>
    obtain ⟨k1, v⟩ := p
    simp only [List.map_cons, List.mem_cons, not_or] at h
    obtain ⟨h1, h2⟩ := h
    have hb : (k == k1) = false := beq_false_of_ne h1
    simpa [jLookup, List.lookup, hb] using ih h2

/-! ## Claims -/

/-- C1.  For every pair of successful, non-empty fetch results whose
consumed records all carry a metrics object, Collect sets the health gauge
to 1 and then, for each record in the first monthly envelope and each
record in the first daily envelope, emits exactly the sixteen gauge
observations described by the spec tables: values equal to the record
counters (the float64 cast is the identity on these integers) and both
labels taken from the record type and name fields unchanged. -/
theorem collect_success_emits_all_records (p : Int) (m0 t0 : Statistics)
    (mrest trest : List Statistics)
    (hdm : ∀ s ∈ m0.stats, s.metrics.isSome)
    (htm : ∀ s ∈ t0.stats, s.metrics.isSome) :
    Collect p (.ok (m0 :: mrest)) (.ok (t0 :: trest))
      = (1, .ok (.upGauge 1 :: (specEmitRecords specMonthlyTable t0.stats
          ++ specEmitRecords specDailyTable m0.stats))) :=
  collect_ok_ok p m0 t0 mrest trest hdm htm

/-- C1 witness: the success path evaluated on the concrete example
envelopes. -/
theorem collect_success_emits_all_records_witness :
    Collect 0 (.ok [exampleEnvelope]) (.ok [exampleEnvelope])
      = (1, .ok (.upGauge 1 :: (specEmitRecords specMonthlyTable exampleEnvelope.stats
          ++ specEmitRecords specDailyTable exampleEnvelope.stats))) :=
  collect_success_emits_all_records 0 exampleEnvelope exampleEnvelope [] []
    (by decide) (by decide)

/-- C2.  Whenever the daily fetch or the monthly fetch returns an error,
Collect emits exactly one observation, the health gauge at 0, and no
metric observation for either granularity, even when the other fetch
succeeded. -/
theorem collect_fetch_error_only_up_zero (p : Int)
    (d m : Except GoErr (List Statistics))
    (h : (∃ e, d = .error e) ∨ (∃ e, m = .error e)) :
    Collect p d m = (0, .ok [.upGauge 0]) := by
  rcases h with ⟨e, rfl⟩ | ⟨e, rfl⟩
  · cases m <;> rfl
  · cases d <;> rfl

/-- C2 witness: a failing daily fetch next to a succeeding monthly fetch
emits only the health gauge at 0. -/
theorem collect_fetch_error_only_up_zero_witness :
    Collect 0 (.error (.message "invalid request")) (.ok [exampleEnvelope])
      = (0, .ok [.upGauge 0]) :=
  collect_fetch_error_only_up_zero 0 _ _ (Or.inl ⟨_, rfl⟩)

/-- Helper: the one empty-daily case the code does guard.  When the daily
fetch succeeds with an empty envelope list, the len check on main.go line
372 fires and Collect emits only the health gauge at 0, whatever the
monthly fetch returned. -/
theorem collect_empty_daily_only_up_zero (p : Int)
    (m : Except GoErr (List Statistics)) :
    Collect p (.ok []) m = (0, .ok [.upGauge 0]) := by
  cases m <;> rfl

/-- C3.  Evaluation at the failing input: the daily fetch succeeds with
one envelope containing zero records, the monthly fetch succeeds with the
example envelope.  The daily result has zero records for the window, so
the claim and the spec fail-closed policy (first envelope empty or absent,
EmptyResult) demand only the health gauge at 0; but the len check on
main.go line 372 sees a non-empty envelope list and passes, so the scrape
emits the health gauge at 1 followed by all sixteen monthly observations
of the example record.  The code implements only the absent half of the
empty-or-absent policy. -/
theorem collect_empty_daily_records_emits_monthly :
    Collect 0 (.ok [{ date := "1970-01-01", stats := [] }]) (.ok [exampleEnvelope])
        = (1, .ok (.upGauge 1 :: specEmitRecords specMonthlyTable exampleEnvelope.stats))
      ∧ Collect 0 (.ok [{ date := "1970-01-01", stats := [] }]) (.ok [exampleEnvelope])
        ≠ (0, .ok [.upGauge 0]) := by
  refine ⟨rfl, fun h => ?_⟩
  exact absurd (congrArg Prod.fst h) (by decide)

/-- C4.  Evaluation at the failing input: both fetches return without
error, the daily result is the non-empty example envelope list, the
monthly result is the empty list.  The unguarded `totalmetrics[0]` on
main.go line 382 is then an out-of-bounds index: the scrape panics right
after the health gauge was set to 1 and sent, which the `Except.error`
outcome records. -/
theorem collect_empty_monthly_panics :
    Collect 0 (.ok [{ date := "2024-01-01", stats := [] }]) (.ok [])
      = (1, .error [.upGauge 1]) := rfl

/-- C5 amended.  Status 200 returns the decode outcome unchanged, so a
decode failure is returned as the parse error itself, carrying its cause,
and a decode success returns the parsed body; status 429 returns the fixed
rate-limit error; any other status returns the fixed message
`invalid request`, which does not carry the status code. -/
theorem responseResult_classification (status : Nat)
    (decode : Except String (List Statistics)) :
    (status = 200 → responseResult status decode
        = (match decode with
            | .ok data => .ok data
            | .error e => .error (.jsonDecode e))) ∧
    (status = 429 → responseResult status decode
        = .error (.message "ireached API rate limit")) ∧
    (status ≠ 200 → status ≠ 429 → responseResult status decode
        = .error (.message "invalid request")) := by
  refine ⟨fun h => ?_, fun h => ?_, fun h1 h2 => ?_⟩
  · subst h; cases decode <;> rfl
  · subst h; rfl
  · simp [responseResult, h1, h2]

/-- C5 witness: the classification applied at status 429. -/
theorem responseResult_classification_witness :
    responseResult 429 (.ok []) = .error (.message "ireached API rate limit") :=
  (responseResult_classification 429 (.ok [])).2.1 rfl

/-- C5 counterexample.  Two different unexpected statuses, 500 and 404,
produce the identical fixed error value, so the returned error cannot
carry the status code as the claim states. -/
theorem responseResult_no_status_code_carried :
    responseResult 500 (.ok []) = responseResult 404 (.ok [])
      ∧ responseResult 500 (.ok []) = .error (.message "invalid request") :=
  ⟨rfl, rfl⟩

/-- C6 amended.  Every request is an HTTP GET to the provider stats
endpoint whose start_date and end_date both equal the current date in the
process local time zone (UTC only when that zone is UTC, as in the shipped
container image), formatted YYYY-MM-DD, whose aggregated_by is day or
month per the requested granularity, and which carries the configured API
key in an Authorization Bearer header. -/
theorem collectMetricsRequest_shape (localSec : Nat) (key : String) (g : Gran) :
    (collectMetricsRequest localSec key (granParam g)).method = "GET" ∧
    (collectMetricsRequest localSec key (granParam g)).endpoint
        = "https://api.sendgrid.com/v3/stats" ∧
    (collectMetricsRequest localSec key (granParam g)).query
        = [("aggregated_by", granParam g),
           ("end_date", formatGoDate localSec),
           ("start_date", formatGoDate localSec)] ∧
    (collectMetricsRequest localSec key (granParam g)).url
        = (collectMetricsRequest localSec key (granParam g)).endpoint ++ "?"
            ++ encodeQuery (collectMetricsRequest localSec key (granParam g)).query ∧
    (collectMetricsRequest localSec key (granParam g)).authorization
        = "Bearer " ++ key :=
  ⟨rfl, rfl, rfl, rfl, rfl⟩

/-- C6 counterexample.  Take the UTC instant 86400 seconds after the epoch
(1970-01-02T00:00:00Z) in a zone one hour west of UTC, where the local
clock reads 82800.  The code formats the local clock, so the request dates
read 1970-01-01 while the UTC date of the same instant is 1970-01-02: the
claim that the dates equal the current UTC date fails. -/
theorem collectMetricsRequest_local_not_utc :
    (collectMetricsRequest 82800 "key" "day").query
        = [("aggregated_by", "day"), ("end_date", "1970-01-01"),
           ("start_date", "1970-01-01")]
      ∧ formatGoDate 86400 = "1970-01-02"
      ∧ collectMetricsRequest 82800 "key" "day"
          ≠ collectMetricsRequest 86400 "key" "day" := by
  refine ⟨rfl, rfl, ?_⟩
  decide

/-- C7.  Decoding a well-formed metrics object that omits one of the
sixteen optional counter members always succeeds (the decoder is total),
leaves that counter at zero, and the daily observation emitted for that
field carries the value 0. -/
theorem decodeMetrics_absent_field_zero (o : List (String × Int)) (i : Fin 16)
    (habs : fieldNameAt i ∉ o.map Prod.fst) (ty nm : String) :
    counterAt i (decodeMetrics o) = 0 ∧
    ∃ l, dailyStatEmits { metrics := some (decodeMetrics o), name := nm, type := ty }
          = some l
        ∧ Emitted.const (dailyDescAt i) 0 ty nm ∈ l := by
  have hz := jLookup_eq_zero o (fieldNameAt i) habs
  fin_cases i <;>
    · simp only [fieldNameAt, fieldNames, List.get] at hz
      refine ⟨?_, ⟨_, rfl, ?_⟩⟩ <;>
        simp [counterAt, counterProjs, dailyDescAt, dailyDescs, decodeMetrics,
          dailyStatEmits, List.get, hz]

/-- C7 witness: an object carrying only the opens member decodes with
blocks equal to zero and the daily blocks observation carries 0. -/
theorem decodeMetrics_absent_field_zero_witness :
    counterAt 0 (decodeMetrics [("opens", 10)]) = 0 ∧
    ∃ l, dailyStatEmits
          { metrics := some (decodeMetrics [("opens", 10)]), name := "example.org", type := "device" }
          = some l
        ∧ Emitted.const (dailyDescAt 0) 0 "device" "example.org" ∈ l :=
  decodeMetrics_absent_field_zero [("opens", 10)] 0 (by decide) "device" "example.org"

/-- C8.  The scrape calls the fetcher for day before month, and on the
success path the observations come in deterministic order: the health
gauge, then the monthly records in response order, then the daily records,
each record contributing its sixteen descriptor names in the fixed field
order of the spec tables. -/
theorem collectRun_order (fetch : String → Except GoErr (List Statistics)) (p : Int)
    (m0 t0 : Statistics) (mrest trest : List Statistics)
    (hd : fetch "day" = .ok (m0 :: mrest))
    (hm : fetch "month" = .ok (t0 :: trest))
    (hdm : ∀ s ∈ m0.stats, s.metrics.isSome)
    (htm : ∀ s ∈ t0.stats, s.metrics.isSome) :
    (CollectRun fetch p).1 = [granParam .day, granParam .month] ∧
    ∃ out, (CollectRun fetch p).2 = (1, .ok out) ∧
      out.map descOf = upName ::
        ((t0.stats.map fun _ => specMonthlyTable.map Prod.fst).flatten
          ++ (m0.stats.map fun _ => specDailyTable.map Prod.fst).flatten) := by
  refine ⟨rfl, ⟨.upGauge 1 :: (specEmitRecords specMonthlyTable t0.stats
    ++ specEmitRecords specDailyTable m0.stats), ?_, ?_⟩⟩
  · show Collect p (fetch (granParam .day)) (fetch (granParam .month)) = _
    rw [show granParam .day = "day" from rfl, show granParam .month = "month" from rfl,
      hd, hm]
    exact collect_ok_ok p m0 t0 mrest trest hdm htm
  · simp [descOf, descOf_specEmitRecords]

/-- C8 witness: the scrape on the example fetch oracle queries day then
month. -/
theorem collectRun_order_witness :
    (CollectRun exampleFetch 0).1 = [granParam .day, granParam .month] :=
  (collectRun_order exampleFetch 0 exampleEnvelope exampleEnvelope [] []
    rfl rfl (by decide) (by decide)).1

/-- C9.  The scrape outcome is unchanged when each fetch result is
truncated to its first envelope: envelopes after the first never
contribute an observation and never change the health gauge. -/
theorem collect_first_envelope_frame (p : Int)
    (d m : Except GoErr (List Statistics)) :
    Collect p (truncFetch d) (truncFetch m) = Collect p d m := by
  cases d with
  | error e => rfl
  | ok ds =>
    cases m with
    | error e => rfl
    | ok ms => cases ds <;> cases ms <;> simp [Collect, truncFetch]

/-- C10.  For a fixed pair of fetch results the scrape output does not
depend on the health-gauge value carried over from earlier scrapes, and
running the scrape again from the state it produced yields the identical
output: the collection step is a deterministic, idempotent read. -/
theorem collect_stateless_idempotent (p q : Int)
    (d m : Except GoErr (List Statistics)) :
    Collect p d m = Collect q d m ∧
    Collect (Collect p d m).1 d m = Collect p d m :=
  ⟨rfl, rfl⟩

end SendgridExporter
